import Mathlib

/-!
Shallow embedding of the MovieRec repository's core logic:

* `backend/services/intent_classifier.py` (`IntentClassifier`),
* `backend/services/graph_query_service.py` (`GraphQueryService.find_similar_movies`),
* `backend/models/hybrid.py` (`HybridRecommender.recommend`),

together with theorems settling the frozen claims C1 to C10.

Modelling conventions: Python floats are embedded as `Rat` (exact
arithmetic); Python dicts keyed by `movie_id` are insertion-ordered
association lists; Python exceptions raised by external collaborators are
`Except String` results, and a `try/except` around a call is a `match` that
maps `Except.error` to the fallback value.  Python truthiness of optional
arguments (`if movie_id:`) is modelled explicitly (`none` and `some 0` are
falsy for integers, `none` and `some ""` for strings).
-/

namespace MovieRec

/-! ## Small Python-string helpers -/

/-- The ASCII single-quote character (written via its code to keep the
source free of tricky literals). -/
def squote : Char := Char.ofNat 39

/-- Python truthiness of an optional integer argument: `None` and `0` are
falsy. -/
def truthyInt : Option Int → Bool
  | none => false
  | some i => i != 0

/-- Python truthiness of an optional string argument: `None` and `""` are
falsy. -/
def truthyStr : Option String → Bool
  | none => false
  | some s => s != ""

/-- Lower-case a character list (ASCII, mirroring `str.lower()` for the
inputs appearing in this repository). -/
def lowerList (s : List Char) : List Char := s.map Char.toLower

/-- Does `needle` occur as a contiguous substring of `hay`?  This mirrors
Python's `needle in hay` on strings. -/
def containsSub (hay needle : List Char) : Bool :=
  hay.tails.any (fun t => needle.isPrefixOf t)

/-- Case-insensitive substring test, mirroring
`needle.lower() in hay.lower()`. -/
def containsSubCI (hay needle : String) : Bool :=
  containsSub (lowerList hay.toList) (lowerList needle.toList)

/-- Strip characters satisfying `p` from both ends of a character list,
mirroring Python's `str.strip`. -/
def stripWith (p : Char → Bool) (s : List Char) : List Char :=
  ((s.dropWhile p).reverse.dropWhile p).reverse

/-- Python's `str.split()` with no argument: split on runs of whitespace,
discarding empty pieces. -/
def pySplit (s : List Char) : List (List Char) :=
  let rec go : List Char → List Char → List (List Char)
    | [], acc => if acc.isEmpty then [] else [acc.reverse]
    | c :: cs, acc =>
      if c.isWhitespace then
        if acc.isEmpty then go cs [] else acc.reverse :: go cs []
      else go cs (c :: acc)
  go s []

/-- Python's `str.title()` restricted to ASCII: a letter is upper-cased
when the previous character is not a letter, lower-cased otherwise. -/
def titleCaseAux : Bool → List Char → List Char
  | _, [] => []
  | prevAlpha, c :: cs =>
    (if c.isAlpha then (if prevAlpha then c.toLower else c.toUpper) else c)
      :: titleCaseAux c.isAlpha cs

/-- Python's `str.title()` on strings. -/
def pyTitle (s : String) : String := String.mk (titleCaseAux false s.toList)

/-- Collapse runs of whitespace to a single space, mirroring
`re.sub(r'\s+', ' ', s)`. -/
def collapseWs : List Char → List Char
  | [] => []
  | c :: cs =>
    if c.isWhitespace then
      ' ' :: collapseWs (cs.dropWhile Char.isWhitespace)
    else c :: collapseWs cs
termination_by s => s.length
decreasing_by
  · have := (List.dropWhile_sublist (l := cs) Char.isWhitespace).length_le
    simp only [List.length_cons]
    omega
  · simp only [List.length_cons]
    omega

/-! ## A small backtracking regex engine

The classifier's patterns use only literals, ordered alternation,
concatenation, greedy `?`, single-character classes, greedy `*`/`+` over a
character class, one capture group, and (for the decade patterns) a
trailing word-boundary test.  `reMatch` enumerates the possible matches of
a pattern at the head of the input in Python's backtracking priority
order; `reSearch` scans start positions left to right, so the head of the
first non-empty candidate list is exactly the match `re.search` returns. -/

inductive RE where
  /-- A literal character sequence. -/
  | lit : List Char → RE
  /-- One character in a class. -/
  | cls : (Char → Bool) → RE
  /-- Greedy star over a character class. -/
  | starCls : (Char → Bool) → RE
  /-- Concatenation. -/
  | seq : RE → RE → RE
  /-- Ordered alternation. -/
  | alt : RE → RE → RE
  /-- Greedy optional. -/
  | opt : RE → RE
  /-- The capture group. -/
  | grp : RE → RE
  /-- Zero-width test that the next character is not a word character (or
  that the input is exhausted); this is how the word boundary after a
  known word character behaves. -/
  | nwb : RE

/-- Character comparison, optionally case-insensitive (the `re.IGNORECASE`
flag). -/
def chEq (ci : Bool) (a b : Char) : Bool :=
  if ci then a.toLower == b.toLower else a == b

/-- Match a literal at the head of the input, returning the rest. -/
def litMatch (ci : Bool) : List Char → List Char → Option (List Char)
  | [], s => some s
  | _ :: _, [] => none
  | p :: ps, c :: cs => if chEq ci p c then litMatch ci ps cs else none

/-- Word character test for the word-boundary assertion. -/
def isWordChar (c : Char) : Bool := c.isAlphanum || c == '_'

/-- Candidate remainders after a greedy class star: longest run first,
backing off one character at a time. -/
def starCandidates (p : Char → Bool) (s : List Char) : List (List Char) :=
  let run := (s.takeWhile p).length
  (List.range (run + 1)).reverse.map (fun k => s.drop k)

/-- All ways a pattern can match at the head of `s`, in backtracking
priority order; each candidate is the remaining input paired with the
capture-group text, if the group participated. -/
def reMatch (ci : Bool) : RE → List Char → List (List Char × Option (List Char))
  | .lit p, s =>
    match litMatch ci p s with
    | some r => [(r, none)]
    | none => []
  | .cls p, s =>
    match s with
    | c :: cs => if p c then [(cs, none)] else []
    | [] => []
  | .starCls p, s => (starCandidates p s).map (fun r => (r, none))
  | .seq a b, s =>
    (reMatch ci a s).flatMap
      (fun pr => (reMatch ci b pr.1).map (fun qr => (qr.1, pr.2 <|> qr.2)))
  | .alt a b, s => reMatch ci a s ++ reMatch ci b s
  | .opt a, s => reMatch ci a s ++ [(s, none)]
  | .grp a, s =>
    (reMatch ci a s).map (fun pr => (pr.1, some (s.take (s.length - pr.1.length))))
  | .nwb, s =>
    match s with
    | [] => [(s, none)]
    | c :: _ => if isWordChar c then [] else [(s, none)]

/-- Scan start positions left to right and return the capture group of the
first match, mirroring `re.search(pattern, s).group(1)`. -/
def reSearchGrp (ci : Bool) (r : RE) : List Char → Option (List Char)
  | [] => (reMatch ci r []).head?.map (fun pr => pr.2.getD [])
  | c :: cs =>
    match (reMatch ci r (c :: cs)).head? with
    | some pr => some (pr.2.getD [])
    | none => reSearchGrp ci r cs

/-- Replace every non-overlapping match of `r` in `s` by the empty string,
scanning left to right and continuing after each match; this mirrors
`re.sub(pattern, "", s)` for the non-nullable patterns used here.  The
fuel argument is the input length plus one. -/
def reSubAllAux (ci : Bool) (r : RE) : Nat → List Char → List Char
  | 0, s => s
  | _ + 1, [] => []
  | fuel + 1, s@(c :: cs) =>
    match (reMatch ci r s).head? with
    | some pr =>
      if pr.1.length < s.length then reSubAllAux ci r fuel pr.1
      else c :: reSubAllAux ci r fuel cs
    | none => c :: reSubAllAux ci r fuel cs

/-- Deletion of all matches of `r` from `s`. -/
def reSubAll (ci : Bool) (r : RE) (s : List Char) : List Char :=
  reSubAllAux ci r (s.length + 1) s

/-- Sequence a list of patterns. -/
def seqList : List RE → RE
  | [] => .lit []
  | [r] => r
  | r :: rs => .seq r (seqList rs)

/-- Literal pattern from a string. -/
def lits (s : String) : RE := .lit s.toList

/-! ## A stable sort

Python's `list.sort` and the store's `ORDER BY` are modelled by a stable
insertion sort: for a total preorder `le` this produces the unique stable
ordering, the same list as any other stable sort.  (A structurally
recursive sort is used so that concrete runs evaluate inside the
kernel.) -/

/-- Insert `a` before the first element `b` with `le a b`. -/
def insertLe {α : Type _} (le : α → α → Bool) (a : α) : List α → List α
  | [] => [a]
  | b :: bs => if le a b then a :: b :: bs else b :: insertLe le a bs

/-- Stable insertion sort by the boolean relation `le`. -/
def sortByLe {α : Type _} (le : α → α → Bool) : List α → List α
  | [] => []
  | a :: as => insertLe le a (sortByLe le as)

/-! ## IntentClassifier (`backend/services/intent_classifier.py`)

The regex tables of the classifier are compiled by hand into `RE` values;
each definition carries the original pattern in its doc comment so it can
be checked against the source. -/

/-- Search strategy kinds (`SearchType`). -/
inductive SearchType where
  | GRAPH
  | SIMILAR
  | CBF
  | HYBRID
  | FILTER
deriving DecidableEq, Repr

/-- The `entities` dict of `QueryIntent`; a key is present in the dict iff
the corresponding field is `some`. -/
structure Entities where
  director : Option String := none
  actor : Option String := none
  genres : Option (List String) := none
deriving DecidableEq, Repr

/-- The `filters` dict of `QueryIntent`. -/
structure Filters where
  year : Option Int := none
  decade : Option (Int × Int) := none
deriving DecidableEq, Repr

/-- The classifier's result record (`QueryIntent`). -/
structure QueryIntent where
  search_types : List SearchType := []
  entities : Entities := {}
  filters : Filters := {}
  original_query : String := ""
  confidence : Rat := 0
  semantic_query : String := ""
  similar_to_movie : String := ""
deriving DecidableEq, Repr

/-- Characters allowed inside a similar-movie title capture:
the class is the negated set in the original character class. -/
def notQ (c : Char) : Bool := !(c == '"' || c == squote || c == '?')

/-- Same with comma excluded (the class used by the liked/loved
pattern). -/
def notQC (c : Char) : Bool := notQ c && !(c == ',')

/-- Python's dot: any character except newline. -/
def anyDot (c : Char) : Bool := !(c == '\n')

/-- ASCII upper-case letter class. -/
def upperC (c : Char) : Bool := 'A' ≤ c && c ≤ 'Z'

/-- ASCII lower-case letter class. -/
def lowerC (c : Char) : Bool := 'a' ≤ c && c ≤ 'z'

/-- Decimal digit class. -/
def digitC (c : Char) : Bool := c.isDigit

/-- Alternation for the movies/films noun with optional plural `s`. -/
def moviesOrFilms : RE :=
  .alt (.seq (lits "movie") (.opt (lits "s"))) (.seq (lits "film") (.opt (lits "s")))

/-- Optional surrounding quote character. -/
def qmark : RE := .opt (.alt (lits "\"") (.lit [squote]))

/-- Capture group for a title: one or more characters outside the quote
set. -/
def grpNotQ : RE := .grp (.seq (.cls notQ) (.starCls notQ))

/-- Capture group for a title excluding commas as well. -/
def grpNotQC : RE := .grp (.seq (.cls notQC) (.starCls notQC))

/-- Alternation for the like/similar-to connective. -/
def likeOrSimilarTo : RE := .alt (lits "like") (lits "similar to")

/-- The six `SIMILAR_PATTERNS` of the classifier, in order. -/
def SIMILAR_PATTERNS : List RE :=
  [ seqList [moviesOrFilms, lits " ", likeOrSimilarTo, lits " ", qmark, grpNotQ, qmark],
    seqList [.alt (lits "something") (lits "anything"), lits " ", likeOrSimilarTo,
             lits " ", qmark, grpNotQ, qmark],
    seqList [.alt (lits "similar") (lits "like"), lits " ", qmark, grpNotQ, qmark],
    seqList [.alt (lits "more") (lits "other"), lits " ", moviesOrFilms, lits " like ",
             qmark, grpNotQ, qmark],
    seqList [.alt (.seq (lits "if i like") (.opt (lits "d")))
                  (.seq (lits "i ")
                        (.alt (lits "love") (.alt (lits "loved")
                              (.alt (lits "enjoy") (lits "enjoyed"))))),
             lits " ", qmark, grpNotQC, qmark],
    seqList [lits "recommend", .starCls anyDot, likeOrSimilarTo, lits " ",
             qmark, grpNotQ, qmark] ]

/-- The trailing filler words removed from an extracted title. -/
def fillerWords : List (List Char) :=
  ["but", "and", "with", "that", "which", "please", "thanks"].map String.toList

/-- Delete from the first occurrence of whitespace followed by a filler
word to the end of the string; this is the `re.sub` that trims a captured
title. -/
def cutTrailer : List Char → List Char
  | [] => []
  | c :: cs =>
    if c.isWhitespace then
      let rest := (c :: cs).dropWhile Char.isWhitespace
      if fillerWords.any (fun w => (litMatch true w rest).isSome) then []
      else c :: cutTrailer cs
    else c :: cutTrailer cs

/-- Clean an extracted similar-movie title: strip whitespace, drop a
trailing filler clause, then strip the listed punctuation characters. -/
def cleanSimilarTitle (g : List Char) : List Char :=
  let t := stripWith Char.isWhitespace g
  let t := cutTrailer t
  stripWith (fun c => c == ' ' || c == '.' || c == ',' || c == '!' || c == '?') t

/-- The `_extract_similar_movie` helper: try the similar patterns in
order (case-insensitively); a match whose cleaned title has at least two
characters yields that title, otherwise the remaining patterns are
tried. -/
def extract_similar_movie (query : String) : Option String :=
  SIMILAR_PATTERNS.findSome? (fun pat =>
    match reSearchGrp true pat query.toList with
    | some g =>
      let t := cleanSimilarTitle g
      if 2 ≤ t.length then some (String.mk t) else none
    | none => none)

/-- The `NON_NAME_WORDS` stopword set. -/
def NON_NAME_WORDS : List String :=
  ["mind", "bending", "thriller", "action", "comedy", "horror", "scary",
   "funny", "great", "best", "good", "classic", "modern", "old", "new",
   "feel", "good", "bad", "fast", "slow", "long", "short", "high", "low",
   "dark", "light", "black", "white", "big", "small", "real", "fake",
   "thought", "provoking", "heart", "warming", "edge", "seat", "must",
   "watch", "highly", "rated", "award", "winning", "critically", "acclaimed"]

/-- The `_is_valid_name` gate: every word of the lower-cased name must be
outside the stopword set and the name must have at least two words. -/
def is_valid_name (name : String) : Bool :=
  let words := pySplit (lowerList name.toList)
  words.all (fun w => !(NON_NAME_WORDS.any (fun nw => nw.toList == w)))
    && 2 ≤ words.length

/-- The capitalized two-word name shape used by the director and
actor patterns. -/
def nameRE : RE :=
  seqList [.cls upperC, .cls lowerC, .starCls lowerC, lits " ",
           .cls upperC, .cls lowerC, .starCls lowerC]

/-- The three `DIRECTOR_PATTERNS`, in order (matched case-sensitively). -/
def DIRECTOR_PATTERNS : List RE :=
  [ seqList [.alt (lits "directed") (.alt (lits "made") (lits "created")),
             lits " by ", .opt (lits "director "), .grp nameRE],
    .seq (lits "director ") (.grp nameRE),
    .seq (lits "by director ") (.grp nameRE) ]

/-- The three `ACTOR_PATTERNS`, in order (matched case-sensitively). -/
def ACTOR_PATTERNS : List RE :=
  [ seqList [.alt (lits "starring") (lits "featuring"), lits " ", .grp nameRE],
    seqList [lits "movies ", .alt (lits "with") (lits "starring"), lits " ", .grp nameRE],
    .seq (lits "actor ") (.grp nameRE) ]

/-- The static `KNOWN_DIRECTORS` table. -/
def KNOWN_DIRECTORS : List String :=
  ["Christopher Nolan", "Steven Spielberg", "Martin Scorsese",
   "Quentin Tarantino", "James Cameron", "David Fincher",
   "Ridley Scott", "Denis Villeneuve", "Wes Anderson",
   "Coen Brothers", "Stanley Kubrick", "Alfred Hitchcock",
   "Francis Ford Coppola", "Tim Burton", "Peter Jackson",
   "Guillermo del Toro", "George Lucas", "Robert Zemeckis"]

/-- The static `KNOWN_ACTORS` table. -/
def KNOWN_ACTORS : List String :=
  ["Tom Hanks", "Leonardo DiCaprio", "Brad Pitt",
   "Morgan Freeman", "Robert De Niro", "Al Pacino",
   "Tom Cruise", "Will Smith", "Denzel Washington",
   "Johnny Depp", "Christian Bale", "Matt Damon",
   "Scarlett Johansson", "Jennifer Lawrence", "Meryl Streep",
   "Natalie Portman", "Emma Stone", "Anne Hathaway"]

/-- The `_extract_director` helper: a known director contained
case-insensitively in the query wins, otherwise the patterns are tried in
order and a valid captured name is title-cased. -/
def extract_director (query : String) : Option String :=
  match KNOWN_DIRECTORS.find? (fun d => containsSubCI query d) with
  | some d => some d
  | none =>
    DIRECTOR_PATTERNS.findSome? (fun pat =>
      match reSearchGrp false pat query.toList with
      | some g =>
        if is_valid_name (String.mk g) then some (pyTitle (String.mk g)) else none
      | none => none)

/-- The `_extract_actor` helper, structured like `extract_director`. -/
def extract_actor (query : String) : Option String :=
  match KNOWN_ACTORS.find? (fun a => containsSubCI query a) with
  | some a => some a
  | none =>
    ACTOR_PATTERNS.findSome? (fun pat =>
      match reSearchGrp false pat query.toList with
      | some g =>
        if is_valid_name (String.mk g) then some (pyTitle (String.mk g)) else none
      | none => none)

/-- The `GENRE_KEYWORDS` table, in source order. -/
def GENRE_KEYWORDS : List (String × List String) :=
  [("action", ["action", "fight", "explosive", "combat"]),
   ("comedy", ["comedy", "funny", "hilarious", "laugh"]),
   ("drama", ["drama", "dramatic", "emotional"]),
   ("horror", ["horror", "scary", "terrifying", "frightening"]),
   ("sci-fi", ["sci-fi", "science fiction", "futuristic", "space"]),
   ("science fiction", ["science fiction", "sci-fi"]),
   ("romance", ["romance", "romantic", "love story"]),
   ("thriller", ["thriller", "suspense", "tense", "suspenseful"]),
   ("animation", ["animation", "animated", "cartoon"]),
   ("documentary", ["documentary", "real story", "true story"]),
   ("fantasy", ["fantasy", "magical", "mythical"]),
   ("adventure", ["adventure", "epic journey"]),
   ("mystery", ["mystery", "detective", "whodunit"]),
   ("crime", ["crime", "criminal", "heist"]),
   ("war", ["war", "military", "battlefield"]),
   ("western", ["western", "cowboy"]),
   ("family", ["family", "kids", "children"]),
   ("musical", ["musical", "singing", "songs"])]

/-- Normalization applied to a matched genre key: Python `title()`, with
the `Sci-Fi` spelling canonicalized to `Science Fiction`. -/
def normalizeGenre (g : String) : String :=
  let n := pyTitle g
  if n == "Sci-Fi" then "Science Fiction" else n

/-- The `_extract_genres` helper: every table entry one of whose keywords
occurs in the lower-cased query appends its normalized genre name. -/
def extract_genres (query_lower : String) : List String :=
  GENRE_KEYWORDS.foldl (fun acc p =>
    if p.2.any (fun kw => containsSub query_lower.toList kw.toList) then
      acc ++ [normalizeGenre p.1]
    else acc) []

/-- A four-digit group. -/
def d4RE : RE := seqList [.cls digitC, .cls digitC, .cls digitC, .cls digitC]

/-- The five `YEAR_PATTERNS`, in order. -/
def YEAR_PATTERNS : List RE :=
  [ .seq (lits "from ") (.grp d4RE),
    .seq (lits "in ") (.grp d4RE),
    .seq (.grp d4RE) (lits " movies"),
    .seq (.grp d4RE) (lits "s"),
    seqList [lits "released ", .opt (lits "in "), .grp d4RE] ]

/-- Integer value of a digit string. -/
def digitsToNat (ds : List Char) : Nat :=
  ds.foldl (fun n c => n * 10 + (c.toNat - 48)) 0

/-- The `_extract_year` helper: first pattern whose captured year lies in
1900..2030 wins; an out-of-range capture falls through to the next
pattern. -/
def extract_year (query : String) : Option Int :=
  YEAR_PATTERNS.findSome? (fun pat =>
    match reSearchGrp false pat query.toList with
    | some g =>
      let y : Int := (digitsToNat g : Nat)
      if 1900 ≤ y && y ≤ 2030 then some y else none
    | none => none)

/-- The two-digit decade pattern with its trailing word boundary. -/
def decadeShortRE : RE :=
  seqList [.grp (.seq (.cls digitC) (.cls digitC)), lits "s", .nwb]

/-- The four-digit decade pattern with its trailing word boundary. -/
def decadeLongRE : RE :=
  seqList [.grp d4RE, lits "s", .nwb]

/-- The `_extract_decade` helper: a two-digit decade below 30 maps into
the 2000s, otherwise into the 1900s; a four-digit decade is used
directly; the result is the inclusive ten-year range. -/
def extract_decade (query_lower : String) : Option (Int × Int) :=
  match reSearchGrp false decadeShortRE query_lower.toList with
  | some g =>
    let ds : Int := (digitsToNat g : Nat)
    let start := if ds < 30 then 2000 + ds else 1900 + ds
    some (start, start + 9)
  | none =>
    match reSearchGrp false decadeLongRE query_lower.toList with
    | some g =>
      let s : Int := (digitsToNat g : Nat)
      some (s, s + 9)
    | none => none

/-- The `DESCRIPTIVE_KEYWORDS` table. -/
def DESCRIPTIVE_KEYWORDS : List String :=
  ["suggest", "recommend", "something", "anything",
   "best", "top", "good", "great", "amazing",
   "underrated", "hidden gem", "classic",
   "mood", "feel", "vibe"]

/-- The `_is_descriptive_query` helper. -/
def is_descriptive_query (query_lower : String) : Bool :=
  DESCRIPTIVE_KEYWORDS.any (fun kw => containsSub query_lower.toList kw.toList)

/-- The `_clean_for_cbf` helper: delete the recognized director and actor
phrases (case-insensitively), collapse whitespace and strip; an empty
result falls back to the original query. -/
def clean_for_cbf (query : String) (director actor : Option String) : String :=
  let cleaned := query.toList
  let cleaned :=
    match director with
    | some d =>
      let dl := lits d
      let pats :=
        [seqList [lits "directed by ", .opt (lits "director "), dl],
         .seq dl (.alt (.lit [squote, 's']) (.alt (lits " movies") (lits " films"))),
         .seq (lits "by ") dl]
      pats.foldl (fun s pat => reSubAll true pat s) cleaned
    | none => cleaned
  let cleaned :=
    match actor with
    | some a =>
      let al := lits a
      let pats :=
        [seqList [.alt (lits "starring") (.alt (lits "with") (lits "featuring")),
                  lits " ", al],
         .seq al (lits " movies")]
      pats.foldl (fun s pat => reSubAll true pat s) cleaned
    | none => cleaned
  let out := stripWith Char.isWhitespace (collapseWs cleaned)
  if out.isEmpty then query else String.mk out

/-- The `classify` entry point of `IntentClassifier`.  A similar-movie
match short-circuits: the similar-to title is stored, the strategy set is
`[SIMILAR]` with confidence 0.95, and no other extraction runs.
Otherwise all extractors run and the decision table picks the strategy
set, confidence and semantic query. -/
def classify (query : String) : QueryIntent :=
  let intent : QueryIntent := { original_query := query, semantic_query := query }
  let query_lower := String.mk (lowerList query.toList)
  match extract_similar_movie query with
  | some sm =>
    { intent with similar_to_movie := sm, search_types := [.SIMILAR], confidence := 19/20 }
  | none =>
    let found_director := extract_director query
    let found_actor := extract_actor query
    let found_genres := extract_genres query_lower
    let found_year := extract_year query
    let found_decade := extract_decade query_lower
    let descriptive := is_descriptive_query query_lower
    let ents : Entities :=
      { director := found_director
        actor := found_actor
        genres := if found_genres.isEmpty then none else some found_genres }
    let intent :=
      { intent with
        entities := ents
        filters := { year := found_year, decade := found_decade } }
    let has_structured := found_director.isSome || found_actor.isSome
      || !found_genres.isEmpty || found_year.isSome
    if has_structured && descriptive then
      { intent with
        search_types := [.HYBRID]
        confidence := 9/10
        semantic_query := clean_for_cbf query found_director found_actor }
    else if has_structured then
      { intent with search_types := [.GRAPH], confidence := 19/20 }
    else if descriptive then
      { intent with search_types := [.CBF], confidence := 4/5, semantic_query := query }
    else
      { intent with search_types := [.HYBRID], confidence := 1/2, semantic_query := query }

/-! ## GraphQueryService.find_similar_movies
(`backend/services/graph_query_service.py`)

The graph store is modelled as a list of movies; the Cypher similarity
query is embedded stage by stage: `collect(DISTINCT ...)` is `List.dedup`,
the shared-element list comprehensions are filters, and `ORDER BY
similarity_score DESC, vote_average DESC` with `LIMIT` is a stable sort
followed by `take`.  The store's unspecified iteration order is the list
order. -/

/-- A movie node together with its genre/actor/director neighbourhoods. -/
structure Movie where
  movie_id : Int
  title : String := ""
  overview : String := ""
  genres : List String := []
  actors : List String := []
  directors : List String := []
  release_year : Option Int := none
  vote_average : Rat := 0
  popularity : Rat := 0
  poster_path : String := ""
deriving DecidableEq, Repr

/-- One row returned by the similarity query, with the match reason the
Python wrapper attaches. -/
structure SimRec where
  movie_id : Int
  title : String
  overview : String
  release_year : Option Int
  vote_average : Rat
  poster_path : String
  popularity : Rat
  genres : List String
  similarity_score : Rat
  genre_matches : Nat
  actor_matches : Nat
  director_matches : Nat
  era_match : Nat
  shared_genres : List String
  shared_actors : List String
  shared_directors : List String
  same_era : Bool
  match_reason : String
deriving DecidableEq, Repr

/-- The `similarity_details` dict returned alongside the list. -/
structure SimilarityDetails where
  source_movie : String
  source_id : Int
  genre_weight : Rat
  actor_weight : Rat
  director_weight : Rat
  era_weight : Rat
  total_found : Nat
deriving DecidableEq, Repr

/-- The weighted combination of the four match counts, exactly as in the
similarity query: `genre_matches*w_g + actor_matches*w_a +
director_matches*w_d + era_match*w_e`. -/
def weightedCombo (gm am dm em : Nat) (gw aw dw ew : Rat) : Rat :=
  gm * gw + am * aw + dm * dw + em * ew

/-- Shared elements: the candidate's distinct values that also occur among
the source's distinct values (`[x IN cand WHERE x IN source]` over
`collect(DISTINCT ...)` lists). -/
def sharedOf (cand src : List String) : List String :=
  cand.dedup.filter (fun x => (src.dedup).contains x)

/-- The era test of the query: both years known and at most ten years
apart, otherwise false. -/
def sameEra (candYear srcYear : Option Int) : Bool :=
  match candYear, srcYear with
  | some cy, some sy => (cy - sy).natAbs ≤ 10
  | _, _ => false

/-- Build the returned row for one candidate, including the
`_match_reason` string the Python code attaches afterwards. -/
def mkSimRec (src cand : Movie) (gw aw dw ew : Rat) : SimRec :=
  let shared_genres := sharedOf cand.genres src.genres
  let shared_actors := sharedOf cand.actors src.actors
  let shared_directors := sharedOf cand.directors src.directors
  let same_era := sameEra cand.release_year src.release_year
  let gm := shared_genres.length
  let am := shared_actors.length
  let dm := shared_directors.length
  let em := if same_era then 1 else 0
  let reasons :=
    (if gm > 0 then
      [toString gm ++ " shared genres: " ++ String.intercalate ", " (shared_genres.take 3)]
     else []) ++
    (if am > 0 then
      [toString am ++ " shared actors: " ++ String.intercalate ", " (shared_actors.take 2)]
     else []) ++
    (if dm > 0 then
      ["same director: " ++ String.intercalate ", " shared_directors]
     else []) ++
    (if same_era then
      ["same era (" ++ (match cand.release_year with
                        | some y => toString y
                        | none => "None") ++ "s)"]
     else [])
  { movie_id := cand.movie_id
    title := cand.title
    overview := cand.overview
    release_year := cand.release_year
    vote_average := cand.vote_average
    poster_path := cand.poster_path
    popularity := cand.popularity
    genres := cand.genres.dedup
    similarity_score := weightedCombo gm am dm em gw aw dw ew
    genre_matches := gm
    actor_matches := am
    director_matches := dm
    era_match := em
    shared_genres := shared_genres
    shared_actors := shared_actors
    shared_directors := shared_directors
    same_era := same_era
    match_reason := String.intercalate "; " reasons }

/-- Descending comparison on `(similarity_score, vote_average)` used by
the `ORDER BY` clause. -/
def simRecLe (a b : SimRec) : Bool :=
  b.similarity_score < a.similarity_score
    || (a.similarity_score == b.similarity_score && b.vote_average ≤ a.vote_average)

/-- The body of the similarity query, given a resolved source movie:
score every other movie, keep positive scores, sort descending by score
then vote average, truncate to `limit`, and report the details dict. -/
def runSimilarity (db : List Movie) (src : Movie) (limit : Nat)
    (gw aw dw ew : Rat) : List SimRec × Option SimilarityDetails :=
  let cands := db.filter (fun m => m.movie_id != src.movie_id)
  let rows := (cands.map (fun c => mkSimRec src c gw aw dw ew)).filter
    (fun r => 0 < r.similarity_score)
  let movies := (sortByLe simRecLe rows).take limit
  (movies,
    some
      { source_movie := src.title
        source_id := src.movie_id
        genre_weight := gw
        actor_weight := aw
        director_weight := dw
        era_weight := ew
        total_found := movies.length })

/-- The `find_similar_movies` entry point.  The source movie is resolved
from `movie_id` when that argument is truthy, else from `movie_title` by
case-insensitive substring match taking the store's first match (the
source query is `LIMIT 1` with no ordering); with neither argument the
call logs an error and returns the empty pair, exactly as when no source
resolves. -/
def find_similar_movies (db : List Movie) (movie_id : Option Int)
    (movie_title : Option String) (limit : Nat)
    (gw aw dw ew : Rat) : List SimRec × Option SimilarityDetails :=
  if truthyInt movie_id then
    match db.find? (fun m => m.movie_id == movie_id.getD 0) with
    | some src => runSimilarity db src limit gw aw dw ew
    | none => ([], none)
  else if truthyStr movie_title then
    match db.find? (fun m => containsSubCI m.title (movie_title.getD "")) with
    | some src => runSimilarity db src limit gw aw dw ew
    | none => ([], none)
  else ([], none)

/-! ## HybridRecommender.recommend (`backend/models/hybrid.py`)

The external collaborators (CBF model, CF model, embedding service, Neo4j
service) are an environment of functions returning `Except String`
results; an `Except.error` plays the role of a raised exception.  Calls
the Python wraps in `try/except` absorb the error locally; the two calls
it does not wrap (`neo4j_service.get_movie_details` and
`neo4j_service.search_movies`) propagate it, so `recommend` itself
returns `Except String`. -/

/-- A recommendation record: the shape of the dicts the strategy adapters
return and that `recommend` emits (the `data` dicts). -/
structure RecData where
  movie_id : Int
  title : String := ""
  genres : List String := []
  overview : String := ""
  release_year : Option Int := none
  poster_path : String := ""
  score : Rat := 0
  explanation : String := ""
deriving DecidableEq, Repr

/-- The movie-details record `neo4j_service.get_movie_details` returns. -/
structure MovieDetails where
  title : String := ""
  genres : List String := []
  overview : String := ""
  release_year : Option Int := none
  poster_path : String := ""
deriving DecidableEq, Repr

/-- The per-strategy score map of one merged candidate. -/
structure Scores where
  cbf : Rat := 0
  cf : Rat := 0
  semantic : Rat := 0
deriving DecidableEq, Repr

/-- One entry of the `all_recommendations` dict. -/
structure Item where
  scores : Scores
  data : RecData
deriving DecidableEq, Repr

/-- The `all_recommendations` dict: an insertion-ordered association list
keyed by `movie_id`. -/
abbrev RecDict := List (Int × Item)

/-- The external collaborators of `HybridRecommender.recommend`. -/
structure Env where
  cbf_similar : Int → Nat → Except String (List RecData)
  cbf_text : String → Nat → Except String (List RecData)
  cf_user : Int → Nat → Except String (List (Int × Rat))
  get_movie_details : Int → Except String (Option MovieDetails)
  generate_embedding : String → Except String (List Rat)
  vector_search : List Rat → Nat → Except String (List RecData)
  search_movies : List String → Nat → Except String (List RecData)

/-- Error propagation of an unwrapped external call: continue with the
value on success, forward the exception otherwise. -/
def exceptStep {α β : Type _} (x : Except String α)
    (k : α → Except String β) : Except String β :=
  match x with
  | .error e => .error e
  | .ok a => k a

/-- Key membership in the dict (`mid in all_recommendations`). -/
def containsKey (d : RecDict) (k : Int) : Bool := d.any (fun p => p.1 == k)

/-- Insert a fresh entry at the end when the key is absent
(`if mid not in all_recommendations: all_recommendations[mid] = ...`). -/
def insertIfAbsent (d : RecDict) (k : Int) (v : Item) : RecDict :=
  if containsKey d k then d else d ++ [(k, v)]

/-- Update the entry at a key in place. -/
def updateVal (d : RecDict) (k : Int) (f : Item → Item) : RecDict :=
  d.map (fun p => if p.1 == k then (p.1, f p.2) else p)

/-- Assignment `all_recommendations[mid]["scores"]["cbf"] = v`. -/
def setCbf (d : RecDict) (k : Int) (v : Rat) : RecDict :=
  updateVal d k (fun it => { it with scores := { it.scores with cbf := v } })

/-- Assignment of the `cf` slot. -/
def setCf (d : RecDict) (k : Int) (v : Rat) : RecDict :=
  updateVal d k (fun it => { it with scores := { it.scores with cf := v } })

/-- Assignment of the `semantic` slot. -/
def setSemantic (d : RecDict) (k : Int) (v : Rat) : RecDict :=
  updateVal d k (fun it => { it with scores := { it.scores with semantic := v } })

/-- The `_get_cbf_recommendations` helper: similar-movie lookups for the
first three liked ids plus an optional text lookup, each wrapped so a
failure contributes nothing. -/
def get_cbf_recommendations (env : Env) (movie_ids : List Int)
    (text_query : Option String) (n : Nat) : List RecData :=
  let base := (movie_ids.take 3).foldl (fun acc mid =>
    match env.cbf_similar mid (n / max movie_ids.length 1) with
    | .ok l => acc ++ l
    | .error _ => acc) []
  if truthyStr text_query then
    match env.cbf_text (text_query.getD "") n with
    | .ok l => base ++ l
    | .error _ => base
  else base

/-- The `_get_cf_recommendations` helper: a wrapped call that degrades to
the empty list on failure. -/
def get_cf_recommendations (env : Env) (user_id : Int) (n : Nat) :
    List (Int × Rat) :=
  match env.cf_user user_id n with
  | .ok l => l
  | .error _ => []

/-- Second half of `_get_semantic_recommendations`: an empty query-part
list returns nothing without calling out; otherwise the joined query is
embedded and vector-searched inside one wrapper that degrades to the
empty list on failure, and the result rows are rebuilt with the listed
display fields (and hence no explanation). -/
def semanticOfParts (env : Env) (query_parts : List String) (n : Nat) :
    List RecData :=
  if query_parts.isEmpty then []
  else
    match env.generate_embedding (String.intercalate " " query_parts) >>=
        (fun e => env.vector_search e n) with
    | .ok rs => rs.map (fun r => { r with explanation := "" })
    | .error _ => []

/-- The `_get_semantic_recommendations` helper: build the query parts
from the text query and the space-joined genres, then search. -/
def get_semantic_recommendations (env : Env) (text_query : Option String)
    (genres : List String) (n : Nat) : List RecData :=
  semanticOfParts env
    ((if truthyStr text_query then [text_query.getD ""] else []) ++
      (if genres.isEmpty then [] else [String.intercalate " " genres])) n

/-- The genre-overlap count `len(set(genres) & set(item_genres))`. -/
def genreOverlap (genres itemGenres : List String) : Nat :=
  (genres.dedup.filter (fun g => itemGenres.contains g)).length

/-- The final weighted score of one merged candidate: the weighted sum of
the three per-strategy scores, boosted by `1 + 0.1 * overlap` when the
preferred genre list and the candidate's genre list are both
non-empty. -/
def combinedScore (cbfW cfW semW : Rat) (genres : List String) (it : Item) : Rat :=
  let base := cbfW * it.scores.cbf + cfW * it.scores.cf + semW * it.scores.semantic
  if !genres.isEmpty && !it.data.genres.isEmpty then
    base * (1 + (1/10) * (genreOverlap genres it.data.genres : Rat))
  else base

/-- The `_generate_explanation` helper: one clause per raw strategy score
above 0.5 plus a genre-overlap clause, with a fixed default when no
clause triggers. -/
def generate_explanation (it : Item) (preferred : List String) : String :=
  let e1 := if (1 : Rat)/2 < it.scores.cbf then ["similar content to movies you like"] else []
  let e2 := if (1 : Rat)/2 < it.scores.cf then ["popular among users with similar taste"] else []
  let e3 := if (1 : Rat)/2 < it.scores.semantic then ["matches your search criteria"] else []
  let matching := preferred.dedup.filter (fun g => it.data.genres.contains g)
  let e4 :=
    if !preferred.isEmpty && !it.data.genres.isEmpty && !matching.isEmpty then
      ["features " ++ String.intercalate ", " matching]
    else []
  let es := e1 ++ e2 ++ e3 ++ e4
  if es.isEmpty then "Recommended based on popularity and relevance"
  else "Recommended because it has " ++ String.intercalate " and " es

/-- Merge one CBF record: insert a zero-scored entry when the movie is
new, then assign (not add) its `cbf` slot. -/
def addCbfRec (d : RecDict) (rec : RecData) : RecDict :=
  setCbf (insertIfAbsent d rec.movie_id { scores := {}, data := rec }) rec.movie_id rec.score

/-- Merge one semantic record, like `addCbfRec` for the `semantic`
slot. -/
def addSemanticRec (d : RecDict) (rec : RecData) : RecDict :=
  setSemantic (insertIfAbsent d rec.movie_id { scores := {}, data := rec })
    rec.movie_id rec.score

/-- The data dict built for a CF-introduced movie from its fetched
details (`score` starts at 0; no explanation key). -/
def dataOfDetails (mid : Int) (md : MovieDetails) : RecData :=
  { movie_id := mid
    title := md.title
    genres := md.genres
    overview := md.overview
    release_year := md.release_year
    poster_path := md.poster_path
    score := 0 }

/-- Merge one CF pair: when the movie is new its details are fetched (an
unwrapped external call whose error propagates) and a missing-details
movie is skipped; when present afterwards, the rescaled rating is
assigned to the `cf` slot. -/
def addCfRec (env : Env) (d : RecDict) (p : Int × Rat) : Except String RecDict :=
  let afterInsert : RecDict → Except String RecDict := fun d₁ =>
    .ok (if containsKey d₁ p.1 then setCf d₁ p.1 (p.2 / 5) else d₁)
  if containsKey d p.1 then afterInsert d
  else
    match env.get_movie_details p.1 with
    | .error e => .error e
    | .ok none => afterInsert d
    | .ok (some m) =>
      afterInsert (d ++ [(p.1, { scores := {}, data := dataOfDetails p.1 m })])

/-- Merge one genre-fallback record: inserted only when new, with the
fixed placeholder scores `{cbf := 0.3, semantic := 0.3}`. -/
def addFallbackRec (d : RecDict) (rec : RecData) : RecDict :=
  if containsKey d rec.movie_id then d
  else d ++ [(rec.movie_id,
    { scores := { cbf := 3/10, cf := 0, semantic := 3/10 }
      data := { movie_id := rec.movie_id
                title := rec.title
                genres := rec.genres
                overview := rec.overview
                release_year := rec.release_year
                poster_path := rec.poster_path
                score := 0
                explanation := "" } })]

/-- The final-scoring loop: skip input movies, compute the combined score
and explanation, and emit the candidate's data with the score and
explanation fields replaced. -/
def finalizeRecs (cbfW cfW semW : Rat) (movie_ids : List Int)
    (genres : List String) (d : RecDict) : List RecData :=
  d.foldl (fun acc p =>
    if movie_ids.contains p.1 then acc
    else acc ++ [{ p.2.data with
                   score := combinedScore cbfW cfW semW genres p.2
                   explanation := generate_explanation p.2 genres }]) []

/-- Descending-by-score comparison for the final stable sort
(`sort(key=..., reverse=True)`). -/
def recLe (a b : RecData) : Bool := b.score ≤ a.score

/-- The `HybridRecommender.recommend` entry point, parameterized by the
constructor weights (defaults 0.4/0.3/0.3).  An error of an unwrapped
external call (`get_movie_details` inside the CF merge, `search_movies`
in the genre fallback) propagates to the caller; every other failure was
already absorbed by the strategy helpers. -/
def recommend (env : Env) (cbfW cfW semW : Rat) (user_id : Option Int)
    (movie_ids : List Int) (genres : List String) (text_query : Option String)
    (n : Nat) : Except String (List RecData) :=
  let cbf_recs := get_cbf_recommendations env movie_ids text_query (n * 2)
  let d1 := cbf_recs.foldl addCbfRec []
  let d2E : Except String RecDict :=
    if truthyInt user_id then
      (get_cf_recommendations env (user_id.getD 0) (n * 2)).foldlM (addCfRec env) d1
    else .ok d1
  exceptStep d2E (fun d2 =>
    let d3 :=
      if truthyStr text_query || !genres.isEmpty then
        (get_semantic_recommendations env text_query genres (n * 2)).foldl
          addSemanticRec d2
      else d2
    let d4E : Except String RecDict :=
      if !genres.isEmpty && d3.length < n then
        exceptStep (env.search_movies genres n) (fun genre_recs =>
          .ok (genre_recs.foldl addFallbackRec d3))
      else .ok d3
    exceptStep d4E (fun d4 =>
      .ok ((sortByLe recLe (finalizeRecs cbfW cfW semW movie_ids genres d4)).take n)))

/-! ## Invariant of the merge dict and concrete fixtures -/

/-- Well-formedness of the `all_recommendations` dict: keys are distinct
and every entry's data record carries its key as `movie_id`. -/
def GoodDict (d : RecDict) : Prop :=
  (d.map Prod.fst).Nodup ∧ ∀ p ∈ d, p.2.data.movie_id = p.1

/-- A source movie fixture. -/
def mv1 : Movie :=
  { movie_id := 1
    title := "Alpha"
    genres := ["A", "B", "C"]
    directors := ["D"]
    release_year := some 2000
    vote_average := 7
    popularity := 10 }

/-- A candidate fixture sharing two genres, no actors, one director and
the era with `mv1`. -/
def mv2 : Movie :=
  { movie_id := 2
    title := "Beta"
    genres := ["A", "B"]
    actors := ["X"]
    directors := ["D"]
    release_year := some 2005
    vote_average := 6
    popularity := 5 }

/-- A low-popularity movie whose title matches the query "star". -/
def mvStar : Movie :=
  { movie_id := 1
    title := "Star"
    popularity := 10 }

/-- A high-popularity movie whose title also matches "star". -/
def mvStarWars : Movie :=
  { movie_id := 2
    title := "Star Wars"
    popularity := 99 }

/-- An environment in which every strategy adapter call throws; the genre
catalog lookup succeeds with an empty result. -/
def envFail : Env :=
  { cbf_similar := fun _ _ => .error "cbf down"
    cbf_text := fun _ _ => .error "cbf down"
    cf_user := fun _ _ => .error "cf down"
    get_movie_details := fun _ => .ok none
    generate_embedding := fun _ => .error "embedding down"
    vector_search := fun _ _ => .error "vector search down"
    search_movies := fun _ _ => .ok [] }

/-- A CBF result record scoring movie 7 at 0.8. -/
def recSeven08 : RecData := { movie_id := 7, title := "Seven", score := 4/5 }

/-- A CBF result record scoring movie 7 at 0.3. -/
def recSeven03 : RecData := { movie_id := 7, title := "Seven", score := 3/10 }

/-- A semantic result record scoring movie 7 at 0.6. -/
def recSeven06 : RecData := { movie_id := 7, title := "Seven", score := 3/5 }

/-- Claim C1 fixtures: a two-movie graph and a one-strategy
environment. -/
def dbC1 : List Movie := [mv1, mv2]

/-- Environment whose only working signal is the CBF lookup for liked
movie 42. -/
def envC1 : Env :=
  { envFail with cbf_similar := fun mid _ =>
      if mid == 42 then .ok [recSeven08] else .error "cbf down" }

/-- The similarity row `find_similar_movies dbC1 (some 1)` returns. -/
def recC1row : SimRec :=
  { movie_id := 2
    title := "Beta"
    overview := ""
    release_year := some 2005
    vote_average := 6
    poster_path := ""
    popularity := 5
    genres := ["A", "B"]
    similarity_score := 13
    genre_matches := 2
    actor_matches := 0
    director_matches := 1
    era_match := 1
    shared_genres := ["A", "B"]
    shared_actors := []
    shared_directors := ["D"]
    same_era := true
    match_reason := "2 shared genres: A, B; same director: D; same era (2005s)" }

/-- The details record for that call. -/
def dC1 : SimilarityDetails :=
  { source_movie := "Alpha"
    source_id := 1
    genre_weight := 5
    actor_weight := 3
    director_weight := 2
    era_weight := 1
    total_found := 1 }

/-- The single recommendation `recommend envC1 ... [42]` emits. -/
def recC1out : RecData :=
  { movie_id := 7
    title := "Seven"
    score := 8/25
    explanation := "Recommended because it has similar content to movies you like" }

/-- Claim C2 counterexample environment: the CBF lookups for the two
liked movies 42 and 43 both name movie 7, at 0.8 and at 0.3. -/
def envC2x : Env :=
  { envFail with cbf_similar := fun mid _ =>
      if mid == 42 then .ok [recSeven08]
      else if mid == 43 then .ok [recSeven03]
      else .error "cbf down" }

/-- The output of the C2 counterexample run: the `cbf` slot holds the
last duplicate's score 0.3, so the combined score is 0.4*0.3. -/
def recC2cex : RecData :=
  { movie_id := 7
    title := "Seven"
    score := 3/25
    explanation := "Recommended based on popularity and relevance" }

/-- Claim C2 amended-run environment: movie 7 is named by the CBF
strategy (0.8) and by the semantic strategy (0.6). -/
def envC2m : Env :=
  { envFail with
    cbf_similar := fun mid _ =>
      if mid == 42 then .ok [recSeven08] else .error "cbf down"
    cbf_text := fun _ _ => .ok []
    generate_embedding := fun _ => .ok [1]
    vector_search := fun _ _ => .ok [recSeven06] }

/-- The single merged entry of the C2 amended run: one entry carrying
both contributions, 0.4*0.8 + 0.3*0.6 = 0.5. -/
def recC2out : RecData :=
  { movie_id := 7
    title := "Seven"
    score := 1/2
    explanation := "Recommended because it has similar content to movies you like and matches your search criteria" }

/-- Claim C3 fixture graph (no title contains "zzz"). -/
def dbC3 : List Movie := [mv1, mv2]

/-- Claim C5 fixture graph. -/
def dbC5 : List Movie := [mv1, mv2]

/-- Claim C6 environment (same single CBF signal, its own copy). -/
def envC6 : Env :=
  { envFail with cbf_similar := fun mid _ =>
      if mid == 42 then .ok [recSeven08] else .error "cbf down" }

/-- The single recommendation of the C6 run, scored 0.4*0.8 = 0.32. -/
def recC6out : RecData :=
  { movie_id := 7
    title := "Seven"
    score := 8/25
    explanation := "Recommended because it has similar content to movies you like" }

/-- Claim C7 fixture graph: the first substring match for "star" has the
lower popularity. -/
def dbC7 : List Movie := [mvStar, mvStarWars]

/-! ## Helper lemmas -/

/-- Inserting into a list is a permutation of consing. -/
theorem insertLe_perm {α : Type _} (le : α → α → Bool) (a : α) :
    ∀ l : List α, (insertLe le a l).Perm (a :: l)
  | [] => .refl _
  | b :: bs => by
    simp only [insertLe]
    split
    · exact .refl _
    · exact ((insertLe_perm le a bs).cons b).trans (List.Perm.swap a b bs)

/-- The stable sort permutes its input. -/
theorem sortByLe_perm {α : Type _} (le : α → α → Bool) :
    ∀ l : List α, (sortByLe le l).Perm l
  | [] => .refl _
  | a :: as =>
    (insertLe_perm le a (sortByLe le as)).trans ((sortByLe_perm le as).cons a)

/-- A fold whose step preserves a predicate preserves it over any list. -/
theorem foldl_preserves {α σ : Type _} (P : σ → Prop) (f : σ → α → σ)
    (hf : ∀ s a, P s → P (f s a)) :
    ∀ (l : List α) (s : σ), P s → P (l.foldl f s)
  | [], _, hs => hs
  | a :: l, s, hs => foldl_preserves P f hf l (f s a) (hf s a hs)

/-- A fold whose step fixes the accumulator returns the start value. -/
theorem foldl_fixed {α σ : Type _} (f : σ → α → σ) (s : σ)
    (h : ∀ (s' : σ) (a : α), f s' a = s') :
    ∀ l : List α, l.foldl f s = s
  | [] => rfl
  | a :: l => by rw [List.foldl_cons, h s a]; exact foldl_fixed f s h l

/-- Inversion of a successful bind in the `Except` monad. -/
theorem except_bind_ok {α β : Type _} {x : Except String α}
    {f : α → Except String β} {b : β} (h : x >>= f = .ok b) :
    ∃ a, x = .ok a ∧ f a = .ok b := by
  cases x with
  | error e => exact absurd h (by simp [Bind.bind, Except.bind])
  | ok a => exact ⟨a, rfl, by simpa [Bind.bind, Except.bind] using h⟩

/-- Inversion of a successful `pure` in the `Except` monad. -/
theorem except_pure_ok {α : Type _} {a b : α}
    (h : (pure a : Except String α) = .ok b) : a = b := by
  simpa [pure, Except.pure] using h

/-- Inversion of a successful `exceptStep`. -/
theorem exceptStep_ok {α β : Type _} {x : Except String α}
    {k : α → Except String β} {b : β} (h : exceptStep x k = .ok b) :
    ∃ a, x = .ok a ∧ k a = .ok b := by
  cases x with
  | error e => exact absurd h (by simp [exceptStep])
  | ok a => exact ⟨a, rfl, h⟩

/-- Computation rule of `exceptStep` on a successful call. -/
theorem exceptStep_ok_val {α β : Type _} (a : α) (k : α → Except String β) :
    exceptStep (.ok a) k = k a := rfl

/-- A monadic fold in `Except` whose step preserves a predicate on
success preserves it end to end. -/
theorem foldlM_except_inv {α σ : Type _} (P : σ → Prop)
    (f : σ → α → Except String σ)
    (hf : ∀ s a s', P s → f s a = .ok s' → P s') :
    ∀ (l : List α) (s s' : σ), P s → l.foldlM f s = .ok s' → P s'
  | [], s, s', hs, h => by
    rw [List.foldlM_nil] at h
    exact (except_pure_ok h) ▸ hs
  | a :: l, s, s', hs, h => by
    rw [List.foldlM_cons] at h
    obtain ⟨s₁, h₁, h₂⟩ := except_bind_ok h
    exact foldlM_except_inv P f hf l s₁ s' (hf s a s₁ hs h₁) h₂

/-- A fold appending `g a` when `c a` fails is a filter-then-map. -/
theorem foldl_if_skip {α β : Type _} (c : α → Bool) (g : α → β) :
    ∀ (l : List α) (init : List β),
      l.foldl (fun acc a => if c a then acc else acc ++ [g a]) init
        = init ++ (l.filter (fun a => !c a)).map g
  | [], init => by simp
  | a :: l, init => by
    simp only [List.foldl_cons, List.filter_cons]
    by_cases hc : c a = true
    · simp [hc, foldl_if_skip c g l init]
    · simp [hc, foldl_if_skip c g l (init ++ [g a])]

/-- A fold appending `g a` when `c a` holds is a filter-then-map. -/
theorem foldl_if_keep {α β : Type _} (c : α → Bool) (g : α → β) :
    ∀ (l : List α) (init : List β),
      l.foldl (fun acc a => if c a then acc ++ [g a] else acc) init
        = init ++ (l.filter c).map g
  | [], init => by simp
  | a :: l, init => by
    simp only [List.foldl_cons, List.filter_cons]
    by_cases hc : c a = true
    · simp [hc, foldl_if_keep c g l (init ++ [g a])]
    · simp [hc, foldl_if_keep c g l init]

/-- A filtered-then-mapped list counts each value at most as often as the
full mapped list. -/
theorem count_map_filter_le {α β : Type _} [BEq β] (g : α → β) (c : α → Bool) (b : β) :
    ∀ l : List α, List.count b ((l.filter c).map g) ≤ List.count b (l.map g)
  | [] => le_refl _
  | a :: l => by
    simp only [List.filter_cons, List.map_cons]
    by_cases hc : c a = true
    · simp only [hc, if_true, List.map_cons, List.count_cons]
      exact Nat.add_le_add_right (count_map_filter_le g c b l) _
    · simp only [hc, if_false, List.count_cons]
      exact le_trans (count_map_filter_le g c b l) (Nat.le_add_right _ _)

/-- Genre extraction is the filter of the static table by keyword match,
mapped through normalization. -/
theorem extract_genres_eq (q : String) :
    extract_genres q =
      (GENRE_KEYWORDS.filter
        (fun p => p.2.any (fun kw => containsSub q.toList kw.toList))).map
        (fun p => normalizeGenre p.1) := by
  unfold extract_genres
  rw [foldl_if_keep
        (fun p : String × List String => p.2.any (fun kw => containsSub q.toList kw.toList))
        (fun p => normalizeGenre p.1) GENRE_KEYWORDS [],
      List.nil_append]

/-! ## Claims C3, C5, C7, C8, C9, C10 -/

/-- C3 counterexample: a call with neither `movieId` nor `movieTitle`
returns the very same value `([], {})` as a call whose title matches
nothing; no `InvalidInput` failure is reported to the caller, who cannot
distinguish the invalid call from an empty result. -/
theorem claim_C3_counterexample :
    find_similar_movies dbC3 none none 10 5 3 2 1 = ([], none)
      ∧ find_similar_movies dbC3 none (some "zzz") 10 5 3 2 1 = ([], none) :=
  ⟨by with_unfolding_all rfl, by with_unfolding_all rfl⟩

/-- C3 (amended): when both `movieId` and `movieTitle` are absent,
`find_similar_movies` logs an error and returns the empty pair `([], {})`
without raising; this is indistinguishable to the caller from an empty
result, so no `InvalidInput` error reaches the caller. -/
theorem claim_C3_amended (db : List Movie) (limit : Nat) (gw aw dw ew : Rat) :
    find_similar_movies db none none limit gw aw dw ew = ([], none) := rfl

/-- C5: the similarity score of every candidate row equals
`shared_genres*w_genre + shared_actors*w_actor + shared_directors*w_director
+ same_era*w_era`, where `same_era` is 1 iff both years are known and
differ by at most 10; and in the fixture graph a candidate sharing two
genres, no actors, one director and the era under weights 5/3/2/1 scores
exactly 13. -/
theorem claim_C5 :
    (∀ (src cand : Movie) (gw aw dw ew : Rat),
        (mkSimRec src cand gw aw dw ew).similarity_score =
          ((sharedOf cand.genres src.genres).length : Rat) * gw
            + ((sharedOf cand.actors src.actors).length : Rat) * aw
            + ((sharedOf cand.directors src.directors).length : Rat) * dw
            + (if sameEra cand.release_year src.release_year then 1 else 0) * ew)
      ∧ (∀ cy sy : Int, sameEra (some cy) (some sy) = decide ((cy - sy).natAbs ≤ 10))
      ∧ (∀ y : Option Int, sameEra y none = false)
      ∧ (find_similar_movies dbC5 (some 1) none 10 5 3 2 1).1.map
          (fun r => r.similarity_score) = [13] := by
  refine ⟨?_, ?_, ?_, by with_unfolding_all rfl⟩
  · intro src cand gw aw dw ew
    simp only [mkSimRec, weightedCombo]
    split <;> simp
  · intro cy sy
    rfl
  · intro y
    cases y <;> rfl

/-- C7 counterexample: resolving the title "star" in a graph whose first
substring match has popularity 10 while a later match has popularity 99
yields the first match (movie 1), not the most popular one; the source
query is `LIMIT 1` with no `ORDER BY`. -/
theorem claim_C7_counterexample :
    (find_similar_movies dbC7 none (some "star") 10 5 3 2 1).2.map
        (fun d => d.source_id) = some 1
      ∧ containsSubCI mvStarWars.title "star" = true
      ∧ mvStar.popularity < mvStarWars.popularity := by
  refine ⟨by with_unfolding_all rfl, by decide, ?_⟩
  show (10 : Rat) < 99
  norm_num

/-- C7 (amended): given only a title, `find_similar_movies` resolves the
source by case-insensitive substring match taking the store's first
match; the popularity tie-break exists only in `find_movie_by_title`,
which this path does not use. -/
theorem claim_C7_amended (db : List Movie) (t : String) (limit : Nat)
    (gw aw dw ew : Rat) (ht : t ≠ "") :
    (find_similar_movies db none (some t) limit gw aw dw ew).2.map
        (fun d => d.source_id)
      = (db.find? (fun m => containsSubCI m.title t)).map (fun m => m.movie_id) := by
  have h2 : truthyStr (some t) = true := by simp [truthyStr, ht]
  simp only [find_similar_movies, truthyInt, h2, Option.getD]
  cases hf : db.find? (fun m => containsSubCI m.title t) with
  | none => simp [hf]
  | some src => simp [hf, runSimilarity]

/-- Witness for C7 (amended) at the fixture graph and the title
"star". -/
theorem claim_C7_witness :
    (find_similar_movies dbC7 none (some "star") 10 5 3 2 1).2.map
        (fun d => d.source_id)
      = (dbC7.find? (fun m => containsSubCI m.title "star")).map
          (fun m => m.movie_id) :=
  claim_C7_amended dbC7 "star" 10 5 3 2 1 (by decide)

/-- C8: whenever a similar-to pattern matches with a cleaned title of at
least two characters (that is, whenever `extract_similar_movie` returns a
title), `classify` short-circuits: the strategy set is `[SIMILAR]` with
confidence 0.95, the title is stored, the semantic query is the original
text, and the entity and filter dicts stay empty because no other
extraction runs. -/
theorem claim_C8 (q t : String) (h : extract_similar_movie q = some t) :
    classify q =
      { search_types := [SearchType.SIMILAR]
        entities := {}
        filters := {}
        original_query := q
        confidence := 19/20
        semantic_query := q
        similar_to_movie := t } := by
  simp only [classify, h]

/-- Witness for C8: `classify "movies like Inception"` extracts the
title "Inception" and short-circuits. -/
theorem claim_C8_witness :
    classify "movies like Inception" =
      { search_types := [SearchType.SIMILAR]
        entities := {}
        filters := {}
        original_query := "movies like Inception"
        confidence := 19/20
        semantic_query := "movies like Inception"
        similar_to_movie := "Inception" } :=
  claim_C8 "movies like Inception" "Inception" (by decide)

/-- C9 counterexample: with the admissible weight set
`{genre := 0, actor := 3, director := 2, era := 1}`, raising
`shared_genres` from 0 to 1 leaves the similarity score unchanged, so the
increase is not strict for every fixed weight set. -/
theorem claim_C9_counterexample :
    ¬ weightedCombo 0 0 0 0 0 3 2 1 < weightedCombo 1 0 0 0 0 3 2 1 := by
  with_unfolding_all decide

/-- C9 (amended): for any fixed weight set whose genre weight is
positive, increasing `shared_genres` while holding the other match counts
constant strictly increases the similarity score. -/
theorem claim_C9_amended (gm gm' am dm em : Nat) (gw aw dw ew : Rat)
    (hgw : 0 < gw) (h : gm < gm') :
    weightedCombo gm am dm em gw aw dw ew
      < weightedCombo gm' am dm em gw aw dw ew := by
  unfold weightedCombo
  have hc : (gm : Rat) < gm' := by exact_mod_cast h
  have := mul_lt_mul_of_pos_right hc hgw
  linarith

/-- Witness for C9 (amended) at the default weights, raising the genre
count from 2 to 3. -/
theorem claim_C9_witness :
    weightedCombo 2 0 1 1 5 3 2 1 < weightedCombo 3 0 1 1 5 3 2 1 :=
  claim_C9_amended 2 3 0 1 1 5 3 2 1 (by norm_num) (by norm_num)

/-- C10 counterexample: the query "sci-fi" matches the keyword tables of
both the `sci-fi` and the `science fiction` entries, and both normalize
to "Science Fiction", so the extracted genre list contains that canonical
name twice — the extraction is not deduplicated. -/
theorem claim_C10_counterexample :
    List.count "Science Fiction" (extract_genres "sci-fi") = 2 := by decide

/-- C10 (amended): genre extraction appends one canonical name per
matching keyword-table entry without deduplication.  Since "Science
Fiction" is the only canonical name produced by two table entries, every
other canonical name appears at most once, and "Science Fiction" appears
at most twice. -/
theorem claim_C10_amended :
    (∀ q g : String, g ≠ "Science Fiction" →
        List.count g (extract_genres q) ≤ 1)
      ∧ ∀ q : String, List.count "Science Fiction" (extract_genres q) ≤ 2 := by
  have key : ∀ q g, List.count g (extract_genres q)
      ≤ List.count g (GENRE_KEYWORDS.map (fun p => normalizeGenre p.1)) := by
    intro q g
    rw [extract_genres_eq]
    exact count_map_filter_le _ _ _ _
  have hL : GENRE_KEYWORDS.map (fun p => normalizeGenre p.1) =
      ["Action", "Comedy", "Drama", "Horror", "Science Fiction",
       "Science Fiction", "Romance", "Thriller", "Animation", "Documentary",
       "Fantasy", "Adventure", "Mystery", "Crime", "War", "Western",
       "Family", "Musical"] := by decide
  constructor
  · intro q g hg
    refine le_trans (key q g) ?_
    rw [hL]
    have hnodup : (["Action", "Comedy", "Drama", "Horror", "Science Fiction",
        "Science Fiction", "Romance", "Thriller", "Animation", "Documentary",
        "Fantasy", "Adventure", "Mystery", "Crime", "War", "Western",
        "Family", "Musical"].erase "Science Fiction").Nodup := by decide
    have hcount := List.nodup_iff_count_le_one.mp hnodup g
    rwa [List.count_erase_of_ne hg] at hcount
  · intro q
    refine le_trans (key q _) ?_
    rw [hL]
    decide

/-- Witness for C10 (amended): on the query "sci-fi", the canonical name
"Action" appears at most once and "Science Fiction" at most twice. -/
theorem claim_C10_witness :
    List.count "Action" (extract_genres "sci-fi") ≤ 1
      ∧ List.count "Science Fiction" (extract_genres "sci-fi") ≤ 2 :=
  ⟨claim_C10_amended.1 "sci-fi" "Action" (by decide), claim_C10_amended.2 "sci-fi"⟩

/-! ## Invariant lemmas for the merge dict -/

/-- Key membership read off the boolean test. -/
theorem containsKey_iff {d : RecDict} {k : Int} :
    containsKey d k = true ↔ k ∈ d.map Prod.fst := by
  simp only [containsKey, List.any_eq_true, List.mem_map, beq_iff_eq]

/-- Updating in place does not change the key list. -/
theorem updateVal_map_fst (d : RecDict) (k : Int) (f : Item → Item) :
    (updateVal d k f).map Prod.fst = d.map Prod.fst := by
  simp only [updateVal, List.map_map]
  refine List.map_congr_left ?_
  intro p _
  dsimp only [Function.comp]
  split <;> rfl

/-- Updating in place with a data-preserving function keeps the
invariant. -/
theorem goodDict_updateVal {d : RecDict} {k : Int} {f : Item → Item}
    (hf : ∀ it, (f it).data.movie_id = it.data.movie_id)
    (h : GoodDict d) : GoodDict (updateVal d k f) := by
  obtain ⟨h1, h2⟩ := h
  refine ⟨by rwa [updateVal_map_fst], ?_⟩
  intro p hp
  simp only [updateVal, List.mem_map] at hp
  obtain ⟨q, hq, rfl⟩ := hp
  split
  · exact hf q.2 ▸ h2 q hq
  · exact h2 q hq

/-- Appending a fresh key keeps the invariant. -/
theorem goodDict_append {d : RecDict} {k : Int} {v : Item}
    (hk : containsKey d k = false) (hv : v.data.movie_id = k)
    (h : GoodDict d) : GoodDict (d ++ [(k, v)]) := by
  obtain ⟨h1, h2⟩ := h
  constructor
  · rw [List.map_append, List.nodup_append]
    refine ⟨h1, by simp, ?_⟩
    simp only [List.map_cons, List.map_nil, List.disjoint_singleton]
    intro hmem
    rw [← containsKey_iff] at hmem
    rw [hmem] at hk
    cases hk
  · intro p hp
    rcases List.mem_append.mp hp with hp | hp
    · exact h2 p hp
    · simp only [List.mem_singleton] at hp
      subst hp
      exact hv

/-- Conditional insertion keeps the invariant. -/
theorem goodDict_insertIfAbsent {d : RecDict} {k : Int} {v : Item}
    (hv : v.data.movie_id = k) (h : GoodDict d) :
    GoodDict (insertIfAbsent d k v) := by
  unfold insertIfAbsent
  by_cases hc : containsKey d k = true
  · simpa [hc] using h
  · rw [if_neg hc]
    exact goodDict_append (Bool.not_eq_true _ ▸ hc) hv h

/-- Merging a CBF record keeps the invariant. -/
theorem goodDict_addCbfRec {d : RecDict} {rec : RecData} (h : GoodDict d) :
    GoodDict (addCbfRec d rec) := by
  unfold addCbfRec setCbf
  exact goodDict_updateVal (fun _ => rfl) (goodDict_insertIfAbsent rfl h)

/-- Merging a semantic record keeps the invariant. -/
theorem goodDict_addSemanticRec {d : RecDict} {rec : RecData} (h : GoodDict d) :
    GoodDict (addSemanticRec d rec) := by
  unfold addSemanticRec setSemantic
  exact goodDict_updateVal (fun _ => rfl) (goodDict_insertIfAbsent rfl h)

/-- Merging a genre-fallback record keeps the invariant. -/
theorem goodDict_addFallbackRec {d : RecDict} {rec : RecData} (h : GoodDict d) :
    GoodDict (addFallbackRec d rec) := by
  unfold addFallbackRec
  by_cases hc : containsKey d rec.movie_id = true
  · simpa [hc] using h
  · rw [if_neg hc]
    exact goodDict_append (Bool.not_eq_true _ ▸ hc) rfl h

/-- The set-cf-if-present step keeps the invariant. -/
theorem goodDict_afterCf {d : RecDict} {k : Int} {v : Rat} (h : GoodDict d) :
    GoodDict (if containsKey d k then setCf d k v else d) := by
  split
  · unfold setCf
    exact goodDict_updateVal (fun _ => rfl) h
  · exact h

/-- Merging a CF pair keeps the invariant on success. -/
theorem goodDict_addCfRec {env : Env} {d : RecDict} {p : Int × Rat} {d' : RecDict}
    (h : GoodDict d) (hok : addCfRec env d p = .ok d') : GoodDict d' := by
  simp only [addCfRec] at hok
  split at hok
  · cases hok
    unfold setCf
    exact goodDict_updateVal (fun _ => rfl) h
  · rename_i hc
    split at hok
    · cases hok
    · cases hok
      exact h
    · cases hok
      exact goodDict_afterCf (goodDict_append (Bool.not_eq_true _ ▸ hc) rfl h)

/-- The final-scoring loop written as a filter and a map. -/
theorem finalizeRecs_eq (cbfW cfW semW : Rat) (mids : List Int)
    (genres : List String) (d : RecDict) :
    finalizeRecs cbfW cfW semW mids genres d =
      (d.filter (fun p => !(mids.contains p.1))).map
        (fun p => { p.2.data with
                    score := combinedScore cbfW cfW semW genres p.2
                    explanation := generate_explanation p.2 genres }) := by
  unfold finalizeRecs
  rw [foldl_if_skip (fun p : Int × Item => mids.contains p.1) _ d [], List.nil_append]

/-- A record emitted by the final-scoring loop is never one of the liked
input movies. -/
theorem finalize_excludes {cbfW cfW semW : Rat} {mids : List Int}
    {genres : List String} {d : RecDict} {r : RecData}
    (hgood : ∀ p ∈ d, p.2.data.movie_id = p.1)
    (hr : r ∈ finalizeRecs cbfW cfW semW mids genres d) :
    ¬ r.movie_id ∈ mids := by
  rw [finalizeRecs_eq] at hr
  simp only [List.mem_map, List.mem_filter] at hr
  obtain ⟨p, ⟨hpd, hpc⟩, rfl⟩ := hr
  have hid : p.2.data.movie_id = p.1 := hgood p hpd
  simp only [hid]
  intro hmem
  have : mids.contains p.1 = true := by
    simpa [List.contains] using List.elem_iff.mpr hmem
  rw [this] at hpc
  cases hpc

/-- The movie ids emitted by the final-scoring loop are pairwise
distinct. -/
theorem finalize_nodup {cbfW cfW semW : Rat} {mids : List Int}
    {genres : List String} {d : RecDict} (hgood : GoodDict d) :
    ((finalizeRecs cbfW cfW semW mids genres d).map (fun r => r.movie_id)).Nodup := by
  rw [finalizeRecs_eq, List.map_map]
  have heq : (d.filter (fun p => !(mids.contains p.1))).map
        ((fun r : RecData => r.movie_id) ∘
          (fun p : Int × Item => { p.2.data with
            score := combinedScore cbfW cfW semW genres p.2
            explanation := generate_explanation p.2 genres }))
      = (d.filter (fun p => !(mids.contains p.1))).map Prod.fst := by
    refine List.map_congr_left ?_
    intro p hp
    exact hgood.2 p (List.mem_of_mem_filter hp)
  rw [heq]
  exact ((List.filter_sublist d).map Prod.fst).nodup hgood.1

/-- Inversion of a successful `recommend` call: the output is the sorted,
truncated finalization of a well-formed merge dict. -/
theorem recommend_ok_cases (env : Env) (cbfW cfW semW : Rat) (user : Option Int)
    (mids : List Int) (genres : List String) (text : Option String) (n : Nat)
    (l : List RecData)
    (h : recommend env cbfW cfW semW user mids genres text n = .ok l) :
    ∃ d : RecDict, GoodDict d ∧
      l = (sortByLe recLe (finalizeRecs cbfW cfW semW mids genres d)).take n := by
  have hnil : GoodDict ([] : RecDict) := ⟨by simp, by intro p hp; cases hp⟩
  have hd1 : GoodDict ((get_cbf_recommendations env mids text (n * 2)).foldl addCbfRec []) :=
    foldl_preserves GoodDict addCbfRec (fun _ _ hs => goodDict_addCbfRec hs) _ _ hnil
  simp only [recommend] at h
  obtain ⟨d2, hE2, h⟩ := exceptStep_ok h
  have hd2 : GoodDict d2 := by
    split at hE2
    · exact foldlM_except_inv GoodDict _ (fun _ _ _ hs hok => goodDict_addCfRec hs hok)
        _ _ _ hd1 hE2
    · cases hE2
      exact hd1
  have hd3 : GoodDict (if (truthyStr text || !genres.isEmpty) = true then
      (get_semantic_recommendations env text genres (n * 2)).foldl addSemanticRec d2
      else d2) := by
    split
    · exact foldl_preserves GoodDict addSemanticRec
        (fun _ _ hs => goodDict_addSemanticRec hs) _ _ hd2
    · exact hd2
  generalize hD3 : (if (truthyStr text || !genres.isEmpty) = true then
      (get_semantic_recommendations env text genres (n * 2)).foldl addSemanticRec d2
      else d2) = d3 at h hd3
  obtain ⟨d4, hE4, h⟩ := exceptStep_ok h
  have hd4 : GoodDict d4 := by
    split at hE4
    · obtain ⟨gr, _, hE5⟩ := exceptStep_ok hE4
      cases hE5
      exact foldl_preserves GoodDict addFallbackRec
        (fun _ _ hs => goodDict_addFallbackRec hs) _ _ hd3
    · cases hE4
      exact hd3
  cases h
  exact ⟨d4, hd4, rfl⟩

/-- When the embedding call always throws, the semantic search yields
nothing. -/
theorem semanticOfParts_fail {env : Env}
    (hemb : ∀ q, ∃ e, env.generate_embedding q = .error e)
    (qp : List String) (k : Nat) : semanticOfParts env qp k = [] := by
  unfold semanticOfParts
  split
  · rfl
  · obtain ⟨e, he⟩ := hemb (String.intercalate " " qp)
    simp [he, Bind.bind, Except.bind]

/-- Candidates produced by the similarity query never carry the source
movie's id. -/
theorem runSimilarity_excludes {db : List Movie} {src : Movie} {limit : Nat}
    {gw aw dw ew : Rat} {ms : List SimRec} {d : SimilarityDetails}
    (h : runSimilarity db src limit gw aw dw ew = (ms, some d)) :
    ∀ r ∈ ms, r.movie_id ≠ d.source_id := by
  simp only [runSimilarity, Prod.mk.injEq, Option.some.injEq] at h
  obtain ⟨hms, hd⟩ := h
  intro r hr
  rw [← hms] at hr
  have hr1 := List.mem_of_mem_take hr
  have hr2 := (sortByLe_perm simRecLe _).mem_iff.mp hr1
  rw [List.mem_filter] at hr2
  obtain ⟨hr3, _⟩ := hr2
  rw [List.mem_map] at hr3
  obtain ⟨c, hc, rfl⟩ := hr3
  rw [List.mem_filter] at hc
  have hne : (c.movie_id != src.movie_id) = true := hc.2
  have : (mkSimRec src c gw aw dw ew).movie_id = c.movie_id := rfl
  rw [this, ← hd]
  simpa using hne

/-! ## Claims C1, C2, C4, C6 -/

/-- C1: the source movie id is excluded from the returned candidates.
For `find_similar_movies`, every returned row's id differs from the
resolved source id recorded in the details; for `recommend`, no returned
record's id lies in the input liked-movie list, whatever the strategies
score. -/
theorem claim_C1 :
    (∀ (db : List Movie) (movie_id : Option Int) (movie_title : Option String)
        (limit : Nat) (gw aw dw ew : Rat) (ms : List SimRec) (d : SimilarityDetails),
        find_similar_movies db movie_id movie_title limit gw aw dw ew = (ms, some d) →
        ∀ r ∈ ms, r.movie_id ≠ d.source_id)
      ∧ (∀ (env : Env) (cbfW cfW semW : Rat) (user : Option Int) (mids : List Int)
          (genres : List String) (text : Option String) (n : Nat) (l : List RecData),
          recommend env cbfW cfW semW user mids genres text n = .ok l →
          ∀ r ∈ l, ¬ r.movie_id ∈ mids) := by
  constructor
  · intro db movie_id movie_title limit gw aw dw ew ms d h
    simp only [find_similar_movies] at h
    split at h
    · split at h
      · exact runSimilarity_excludes h
      · simp at h
    · split at h
      · split at h
        · exact runSimilarity_excludes h
        · simp at h
      · simp at h
  · intro env cbfW cfW semW user mids genres text n l h r hr
    obtain ⟨d, hd, rfl⟩ := recommend_ok_cases env cbfW cfW semW user mids genres text n l h
    have hr1 := List.mem_of_mem_take hr
    have hr2 := (sortByLe_perm recLe _).mem_iff.mp hr1
    exact finalize_excludes hd.2 hr2

/-- Witness for C1: in the fixture graph the only candidate row has id 2
while the resolved source id is 1, and in the fixture recommendation run
the emitted movie 7 is not the liked movie 42. -/
theorem claim_C1_witness :
    recC1row.movie_id ≠ dC1.source_id ∧ ¬ recC1out.movie_id ∈ [(42 : Int)] :=
  ⟨claim_C1.1 dbC1 (some 1) none 10 5 3 2 1 [recC1row] dC1
      (by with_unfolding_all rfl) recC1row (by simp),
   claim_C1.2 envC1 (2/5) (3/10) (3/10) none [42] [] none 10 [recC1out]
      (by with_unfolding_all rfl) recC1out (by simp)⟩

/-- C2 counterexample: the CBF lookups for the two liked movies both
name movie 7, first at 0.8 then at 0.3; the merged entry keeps only the
last assignment, so the final score is 0.4*0.3 = 0.12 and not the
0.4*(0.8+0.3) = 0.44 the summed-contribution reading predicts —
per-strategy duplicate scores are overwritten, not added. -/
theorem claim_C2_counterexample :
    recommend envC2x (2/5) (3/10) (3/10) none [42, 43] [] none 10 = .ok [recC2cex]
      ∧ recC2cex.score ≠ (2/5) * ((4/5) + (3/10)) := by
  refine ⟨by with_unfolding_all rfl, ?_⟩
  show (3/25 : Rat) ≠ (2/5) * ((4/5) + (3/10))
  norm_num

/-- C2 (amended): `movie_id` is the sole merge key and the returned list
never contains two records with the same movie id; a movie named by two
different strategies collapses into one entry whose per-strategy scores
sit in separate slots of the same record (demonstrated by the fixture
run, where CBF 0.8 and semantic 0.6 combine to 0.4*0.8 + 0.3*0.6 = 0.5);
but a movie named twice within one strategy keeps only the last-listed
score for that strategy's slot — assignments overwrite, they do not
add. -/
theorem claim_C2_amended :
    (∀ (env : Env) (cbfW cfW semW : Rat) (user : Option Int) (mids : List Int)
        (genres : List String) (text : Option String) (n : Nat) (l : List RecData),
        recommend env cbfW cfW semW user mids genres text n = .ok l →
        (l.map (fun r => r.movie_id)).Nodup)
      ∧ recommend envC2m (2/5) (3/10) (3/10) none [42] [] (some "space wars") 10
          = .ok [recC2out] := by
  constructor
  · intro env cbfW cfW semW user mids genres text n l h
    obtain ⟨d, hd, rfl⟩ := recommend_ok_cases env cbfW cfW semW user mids genres text n l h
    have h1 := @finalize_nodup cbfW cfW semW mids genres d hd
    have h2 : ((sortByLe recLe (finalizeRecs cbfW cfW semW mids genres d)).map
        (fun r => r.movie_id)).Nodup :=
      (((sortByLe_perm recLe _).map (fun r => r.movie_id)).symm).nodup h1
    rw [List.map_take]
    exact ((List.take_sublist _ _).nodup h2)
  · with_unfolding_all rfl

/-- Witness for C2 (amended) at the fixture run: the output ids are
pairwise distinct. -/
theorem claim_C2_witness :
    (([recC2out].map (fun r => r.movie_id)).Nodup) :=
  claim_C2_amended.1 envC2m (2/5) (3/10) (3/10) none [42] [] (some "space wars") 10
    [recC2out] (by with_unfolding_all rfl)

/-- C4: when every strategy adapter call throws (both CBF lookups, the CF
lookup, and the semantic call via its embedding step) and the genre
fallback yields nothing (no preferred genres, or an empty catalog
result), `recommend` returns the empty list rather than propagating an
exception. -/
theorem claim_C4 (env : Env) (cbfW cfW semW : Rat) (user : Option Int)
    (mids : List Int) (genres : List String) (text : Option String) (n : Nat)
    (hcbf : ∀ mid k, ∃ e, env.cbf_similar mid k = .error e)
    (hcbft : ∀ t k, ∃ e, env.cbf_text t k = .error e)
    (hcf : ∀ u k, ∃ e, env.cf_user u k = .error e)
    (hemb : ∀ q, ∃ e, env.generate_embedding q = .error e)
    (hfb : genres = [] ∨ env.search_movies genres n = .ok []) :
    recommend env cbfW cfW semW user mids genres text n = .ok [] := by
  have hcbfrecs : get_cbf_recommendations env mids text (n * 2) = [] := by
    unfold get_cbf_recommendations
    have hbase := foldl_fixed
      (fun acc mid => match env.cbf_similar mid ((n * 2) / max mids.length 1) with
        | .ok l => acc ++ l
        | .error _ => acc) ([] : List RecData)
      (by
        intro s' a
        obtain ⟨e, he⟩ := hcbf a ((n * 2) / max mids.length 1)
        simp [he])
      (mids.take 3)
    rw [hbase]
    by_cases ht : truthyStr text = true
    · obtain ⟨e, he⟩ := hcbft (text.getD "") (n * 2)
      simp [ht, he]
    · simp [ht]
  have hsem : get_semantic_recommendations env text genres (n * 2) = [] := by
    unfold get_semantic_recommendations
    exact semanticOfParts_fail hemb _ _
  have hgcf : ∀ u k, get_cf_recommendations env u k = [] := by
    intro u k
    obtain ⟨e, he⟩ := hcf u k
    simp [get_cf_recommendations, he]
  simp only [recommend, hcbfrecs, hsem, hgcf, List.foldl_nil, List.foldlM_nil,
    ite_self]
  rcases hfb with hg | hsm
  · subst hg
    simp [exceptStep, pure, Except.pure, finalizeRecs, sortByLe]
  · simp [hsm, exceptStep, pure, Except.pure, finalizeRecs, sortByLe]

/-- Witness for C4: in the all-failing fixture environment, a fully
loaded call (user, liked movie, genre, text) returns the empty list. -/
theorem claim_C4_witness :
    recommend envFail (2/5) (3/10) (3/10) (some 9) [42] ["A"] (some "t") 10
      = .ok [] :=
  claim_C4 envFail (2/5) (3/10) (3/10) (some 9) [42] ["A"] (some "t") 10
    (fun _ _ => ⟨"cbf down", rfl⟩) (fun _ _ => ⟨"cbf down", rfl⟩)
    (fun _ _ => ⟨"cf down", rfl⟩) (fun _ => ⟨"embedding down", rfl⟩)
    (Or.inr rfl)

/-- C6: the combined score of every merged candidate is the weighted sum
`cbfW*cbf + cfW*cf + semW*semantic`, multiplied by `1 + 0.1*overlap`
exactly when the preferred genre list is non-empty and the candidate has
at least one overlapping genre; and with the default weights 0.4/0.3/0.3
a candidate with cbf 0.8, cf 0, semantic 0 and no genre overlap comes out
at 0.32. -/
theorem claim_C6 :
    (∀ (cbfW cfW semW : Rat) (genres : List String) (it : Item),
        combinedScore cbfW cfW semW genres it =
          (cbfW * it.scores.cbf + cfW * it.scores.cf + semW * it.scores.semantic) *
            (if genres ≠ [] ∧ 1 ≤ genreOverlap genres it.data.genres
             then 1 + (1/10) * (genreOverlap genres it.data.genres : Rat)
             else 1))
      ∧ recommend envC6 (2/5) (3/10) (3/10) none [42] [] none 10 = .ok [recC6out] := by
  constructor
  · intro cbfW cfW semW genres it
    unfold combinedScore
    by_cases hg : genres = []
    · subst hg
      simp
    · by_cases hig : it.data.genres = []
      · have hov : genreOverlap genres ([] : List String) = 0 := by
          simp [genreOverlap, List.contains]
        simp [hig, hov]
      · by_cases hov : 1 ≤ genreOverlap genres it.data.genres
        · simp [hg, hig, hov, List.isEmpty_eq_false.mpr hg,
            List.isEmpty_eq_false.mpr hig]
        · have h0 : genreOverlap genres it.data.genres = 0 := by omega
          simp [hg, hig, hov, h0, List.isEmpty_eq_false.mpr hg,
            List.isEmpty_eq_false.mpr hig]
  · with_unfolding_all rfl

end MovieRec
